import Mathlib

/-!
Verification development for the request/transaction orchestration layer of a
datastore client (source: src/src/request.ts). The definitions below are a
shallow embedding of that file: wire key and entity protos are represented by
natural numbers (the entity codec is an external collaborator and is modelled
as the identity on these tokens), transaction handles are byte lists, and the
synchronous validation phase of each entry point is a total function returning
an Except value whose error component carries the exact error message thrown
by the source. An RPC is issued only when the validation phase returns ok, so
"fails before any RPC" is expressed as the validation returning an error.
-/

namespace DatastoreSpec

/-- Transaction handles are byte strings; modelled as lists of bytes. -/
abbrev Handle := List Nat

/-- Wire representation of a key (entity.keyToKeyProto output); opaque token. -/
abbrev KeyProto := Nat

/-- Decoded entity (entity.formatArray output); opaque token. -/
abbrev Entity := Nat

/-- Server-issued continuation cursor; opaque token. -/
abbrev Cursor := Nat

/-- Mirror of the TransactionState enum (request.ts lines 192-197). -/
inductive TransactionState where
  | NOT_TRANSACTION
  | NOT_STARTED
  | IN_PROGRESS
  | EXPIRED
deriving DecidableEq, Repr

/-- Mirror of the exported transactionExpiredError constant (request.ts line 30). -/
def transactionExpiredError : String := "This transaction has already expired."

/-- Mirror of the readTimeAndConsistencyError constant (request.ts lines 165-166). -/
def readTimeAndConsistencyError : String :=
  "Read time and read consistency cannot both be specified."

/-- Mirror of google.protobuf.ITimestamp as populated by this layer: the source
only ever writes the seconds field (request.ts lines 1126-1128), so nanos stays
at its default none. -/
structure Timestamp where
  seconds : Int
  nanos : Option Int := none
deriving DecidableEq, Repr

/-- Payload of readWrite in TransactionRequestOptions (request.ts line 38). -/
structure ReadWrite where
  previousTransaction : Option Handle := none
deriving DecidableEq, Repr

/-- Mirror of TransactionRequestOptions (request.ts lines 36-39); readOnly is an
empty object, modelled as a unit marker. -/
structure TransactionRequestOptions where
  readOnly : Option Unit := none
  readWrite : Option ReadWrite := none
deriving DecidableEq, Repr

/-- The transactionOptions sub-record of RunOptions used by getTransactionRequest. -/
structure TransactionOptions where
  readOnly : Bool := false
  id : Option Handle := none
deriving DecidableEq, Repr

/-- Mirror of the RunOptions fields that getTransactionRequest reads. -/
structure RunOptions where
  readOnly : Bool := false
  transactionId : Option Handle := none
  transactionOptions : Option TransactionOptions := none
deriving DecidableEq, Repr

/-- Mirror of the readOptions sub-record of SharedQueryOptions
(request.ts lines 1488-1498). -/
structure ReadOptions where
  readConsistency : Option Nat := none
  transaction : Option Handle := none
  readTime : Option Timestamp := none
  newTransaction : Option TransactionRequestOptions := none
  consistencyType : Option String := none
deriving DecidableEq, Repr

/-- Mirror of SharedQueryOptions (request.ts lines 1483-1499); explainOptions is
an opaque payload and partitionId holds the namespaceId string. -/
structure SharedQueryOptions where
  readOptions : Option ReadOptions := none
  explainOptions : Option Unit := none
  partitionId : Option String := none
deriving DecidableEq, Repr

/-- Caller options for createReadStream / runQueryStream / runAggregationQuery:
the fields of RunQueryOptions this layer reads. readTime is the caller-supplied
epoch-millisecond timestamp. -/
structure RunQueryOptions where
  consistency : Option String := none
  readTime : Option Int := none
  explainOptions : Option Unit := none
deriving DecidableEq, Repr

/-- The Query fields read and written by runQueryStream pagination: start
cursor, offset and limit (both with the -1 absent sentinel, as in query.ts),
and the namespace consumed by getQueryOptions. -/
structure Query where
  startVal : Option Cursor := none
  offsetVal : Int := -1
  limitVal : Int := -1
  namespaceVal : Option String := none
deriving DecidableEq, Repr

/-- A single buffered mutation entry: delete carries the key proto
(request.ts lines 543-548). -/
inductive MutationEntry where
  | delete (key : KeyProto)
deriving DecidableEq, Repr

/-- The reqOpts record pushed onto a transaction's requests_ buffer or sent in
a commit RPC: a list of mutations. -/
structure MutationRequest where
  mutations : List MutationEntry
deriving DecidableEq, Repr

/-- RPC invocations observable in the operations modelled here. -/
inductive RpcCall where
  | commit (req : MutationRequest)
  | allocateIds (keys : List KeyProto)
deriving DecidableEq, Repr

/-- The mutable per-context fields of the DatastoreRequest class
(request.ts lines 207-219): the transaction handle id, the transaction state,
and the buffered requests_ list. isTransactionObject models the
instanceof-Transaction runtime check of isTransaction (lines 1364-1366) and
readOnly the Transaction field read by getTransactionRequest. -/
structure DatastoreRequest where
  isTransactionObject : Bool := false
  readOnly : Bool := false
  id : Option Handle := none
  state : TransactionState := TransactionState.NOT_TRANSACTION
  requests_ : List MutationRequest := []
deriving DecidableEq, Repr

/-- Response shape consumed by parseTransactionResponse: an optional response
carrying an optional transaction handle. -/
structure TxnResponse where
  transaction : Option Handle := none
deriving DecidableEq, Repr

/-- JS truthiness of options.readTime: a numeric 0 is falsy, so a readTime of 0
behaves exactly like an absent readTime everywhere the source tests it. -/
def readTimeTruthy (opts : RunQueryOptions) : Bool :=
  match opts.readTime with
  | some t => decide (t ≠ 0)
  | none => false

/-- JS truthiness of options.consistency: the empty string is falsy. -/
def consistencyTruthy (opts : RunQueryOptions) : Bool :=
  match opts.consistency with
  | some c => decide (c ≠ "")
  | none => false

/-- Mirror of checkExpired (request.ts lines 373-377). -/
def checkExpired (ctx : DatastoreRequest) : Except String Unit :=
  if ctx.state = TransactionState.EXPIRED then Except.error transactionExpiredError
  else Except.ok ()

/-- Mirror of throwOnReadTimeAndConsistency (request.ts lines 169-173). -/
def throwOnReadTimeAndConsistency (opts : RunQueryOptions) : Except String Unit :=
  if readTimeTruthy opts && consistencyTruthy opts then
    Except.error readTimeAndConsistencyError
  else Except.ok ()

/-- Mirror of the CONSISTENCY_PROTO_CODE map (request.ts lines 181-184): an
unknown consistency value yields none (the server default passes through). -/
def consistencyProtoCode (s : String) : Option Nat :=
  if s = "eventual" then some 2
  else if s = "strong" then some 1
  else none

/-- Mirror of getTransactionRequest (request.ts lines 1400-1423). -/
def getTransactionRequest (transaction : DatastoreRequest) (options : RunOptions) :
    TransactionRequestOptions :=
  match options.transactionOptions with
  | some topts =>
    if topts.readOnly then { readOnly := some () }
    else
      match topts.id with
      | some i => { readWrite := some { previousTransaction := some i } }
      | none => { }
  | none =>
    if options.readOnly || transaction.readOnly then { readOnly := some () }
    else
      match options.transactionId.orElse (fun _ => transaction.id) with
      | some i => { readWrite := some { previousTransaction := some i } }
      | none => { }

/-- Mirror of getRequestOptions (request.ts lines 1097-1131): a newTransaction
marker for a Transaction object in NOT_STARTED state, then the consistency
code, then the read time composed as whole seconds floor(millis/1000). The
truthiness guards on options.consistency and options.readTime follow the JS
if tests of the source. -/
def getRequestOptions (ctx : DatastoreRequest) (opts : RunQueryOptions) :
    SharedQueryOptions :=
  let sharedQueryOpts : SharedQueryOptions := { }
  let sharedQueryOpts :=
    if ctx.isTransactionObject && decide (ctx.state = TransactionState.NOT_STARTED) then
      { sharedQueryOpts with
        readOptions := some { sharedQueryOpts.readOptions.getD { } with
          newTransaction := some (getTransactionRequest ctx { }),
          consistencyType := some "newTransaction" } }
    else sharedQueryOpts
  let sharedQueryOpts :=
    match opts.consistency with
    | some c =>
      if c ≠ "" then
        { sharedQueryOpts with
          readOptions := some { sharedQueryOpts.readOptions.getD { } with
            readConsistency := consistencyProtoCode c.toLower } }
      else sharedQueryOpts
    | none => sharedQueryOpts
  let sharedQueryOpts :=
    match opts.readTime with
    | some t =>
      if t ≠ 0 then
        { sharedQueryOpts with
          readOptions := some { sharedQueryOpts.readOptions.getD { } with
            readTime := some { seconds := Int.fdiv t 1000 } } }
      else sharedQueryOpts
    | none => sharedQueryOpts
  sharedQueryOpts

/-- Mirror of getQueryOptions (request.ts lines 1139-1153). -/
def getQueryOptions (ctx : DatastoreRequest) (q : Query) (opts : RunQueryOptions) :
    SharedQueryOptions :=
  let sharedQueryOpts := getRequestOptions ctx opts
  let sharedQueryOpts :=
    match opts.explainOptions with
    | some eo => { sharedQueryOpts with explainOptions := some eo }
    | none => sharedQueryOpts
  match q.namespaceVal with
  | some ns =>
    if ns ≠ "" then { sharedQueryOpts with partitionId := some ns }
    else sharedQueryOpts
  | none => sharedQueryOpts

/-- Truthiness of options.readOptions.newTransaction as tested by
throwOnTransactionErrors. -/
def readOptionHasNewTransaction (o : SharedQueryOptions) : Bool :=
  match o.readOptions with
  | some ro => ro.newTransaction.isSome
  | none => false

/-- Truthiness of options.readOptions.readConsistency: the source only ever
stores the codes 1 and 2 here, both truthy, so presence is the test. -/
def readOptionHasReadConsistency (o : SharedQueryOptions) : Bool :=
  match o.readOptions with
  | some ro => ro.readConsistency.isSome
  | none => false

/-- Truthiness of options.readOptions.readTime (an object, truthy iff present). -/
def readOptionHasReadTime (o : SharedQueryOptions) : Bool :=
  match o.readOptions with
  | some ro => ro.readTime.isSome
  | none => false

/-- Mirror of throwOnTransactionErrors (request.ts lines 1375-1391). -/
def throwOnTransactionErrors (request : DatastoreRequest) (options : SharedQueryOptions) :
    Except String Unit :=
  if request.id.isSome || readOptionHasNewTransaction options then
    if readOptionHasReadConsistency options then
      Except.error "Read consistency cannot be specified in a transaction."
    else if readOptionHasReadTime options then
      Except.error "Read time cannot be specified in a transaction."
    else Except.ok ()
  else Except.ok ()

/-- Mirror of parseTransactionResponse (request.ts lines 704-711): whenever the
response carries a transaction handle of positive byte length, both id and
state are overwritten, with no guard on the current state. -/
def parseTransactionResponse (ctx : DatastoreRequest) (resp : Option TxnResponse) :
    DatastoreRequest :=
  match resp with
  | some r =>
    match r.transaction with
    | some t =>
      if 0 < t.length then
        { ctx with id := some t, state := TransactionState.IN_PROGRESS }
      else ctx
    | none => ctx
  | none => ctx

/-- Whether a response carries a non-empty transaction handle, the exact guard
of parseTransactionResponse. -/
def respHandleNonempty (resp : Option TxnResponse) : Bool :=
  match resp with
  | some r =>
    match r.transaction with
    | some t => decide (0 < t.length)
    | none => false
  | none => false

/-- Mirror of DatastoreRequest.delete (request.ts lines 533-566): build the
delete mutations, then branch purely on the presence of this.id, either
pushing one request record onto requests_ (no RPC) or issuing one commit RPC.
The returned pair is the updated context and the list of RPCs issued. Note the
source performs no checkExpired call here. -/
def deleteOp (ctx : DatastoreRequest) (keys : List KeyProto) :
    DatastoreRequest × List RpcCall :=
  let reqOpts : MutationRequest := { mutations := keys.map MutationEntry.delete }
  if ctx.id.isSome then
    ({ ctx with requests_ := ctx.requests_ ++ [reqOpts] }, [])
  else
    (ctx, [RpcCall.commit reqOpts])

/-- Mirror of allocateIds (request.ts lines 340-368): reject a complete key,
otherwise issue one allocateIds RPC with allocations copies of the key proto.
entity.isKeyComplete is an external collaborator and enters as a flag. Note the
source performs no checkExpired call here either. -/
def allocateIdsOp (_ctx : DatastoreRequest) (keyIsComplete : Bool) (key : KeyProto)
    (allocations : Nat) : Except String RpcCall :=
  if keyIsComplete then Except.error "An incomplete key should be provided."
  else Except.ok (RpcCall.allocateIds (List.replicate allocations key))

/-- Synchronous validation phase of createReadStream (request.ts lines 406-417),
run before any lookup RPC: arrified keys must be non-empty, then checkExpired,
then throwOnReadTimeAndConsistency, then composition of the request options and
throwOnTransactionErrors. An ok value is the composed envelope the first RPC
would carry; every error here is thrown before any RPC is issued. -/
def createReadStreamSync (ctx : DatastoreRequest) (keys : List KeyProto)
    (opts : RunQueryOptions) : Except String SharedQueryOptions :=
  if keys.length = 0 then
    Except.error "At least one Key object is required."
  else
    match checkExpired ctx with
    | Except.error e => Except.error e
    | Except.ok _ =>
      match throwOnReadTimeAndConsistency opts with
      | Except.error e => Except.error e
      | Except.ok _ =>
        let reqOpts := getRequestOptions ctx opts
        match throwOnTransactionErrors ctx reqOpts with
        | Except.error e => Except.error e
        | Except.ok _ => Except.ok reqOpts

/-- Synchronous validation phase of runQueryStream (request.ts lines 987-992):
checkExpired, then throwOnReadTimeAndConsistency, then getQueryOptions and
throwOnTransactionErrors, all before the first runQuery RPC. -/
def runQueryStreamSync (ctx : DatastoreRequest) (q : Query) (opts : RunQueryOptions) :
    Except String SharedQueryOptions :=
  match checkExpired ctx with
  | Except.error e => Except.error e
  | Except.ok _ =>
    match throwOnReadTimeAndConsistency opts with
    | Except.error e => Except.error e
    | Except.ok _ =>
      let sharedQueryOpts := getQueryOptions ctx q opts
      match throwOnTransactionErrors ctx sharedQueryOpts with
      | Except.error e => Except.error e
      | Except.ok _ => Except.ok sharedQueryOpts

/-- Pre-RPC phase of runAggregationQuery (request.ts lines 741-783): the
EXPIRED check, then the readTime/consistency conflict check, then query proto
construction (an external translation, entering as an Except parameter; its
error is delivered to the callback on the next tick), then getQueryOptions and
throwOnTransactionErrors. All errors are delivered through the callback before
the runAggregationQuery RPC is issued. -/
def runAggregationQuerySync (ctx : DatastoreRequest) (q : Query) (opts : RunQueryOptions)
    (queryProtoRes : Except String Unit) : Except String SharedQueryOptions :=
  if ctx.state = TransactionState.EXPIRED then Except.error transactionExpiredError
  else if readTimeTruthy opts && consistencyTruthy opts then
    Except.error readTimeAndConsistencyError
  else
    match queryProtoRes with
    | Except.error e => Except.error e
    | Except.ok _ =>
      let sharedQueryOpts := getQueryOptions ctx q opts
      match throwOnTransactionErrors ctx sharedQueryOpts with
      | Except.error e => Except.error e
      | Except.ok _ => Except.ok sharedQueryOpts

/-- One lookup round response: found entities and the deferred residual keys.
The source maps deferred through keyFromKeyProto and back through
keyToKeyProto; under the opaque key model that round trip is the identity. -/
structure LookupResponse where
  found : List Entity := []
  deferred : List KeyProto := []
deriving DecidableEq, Repr

/-- Observable trace of the createReadStream pagination loop: the key set of
every lookup RPC issued, the entities pushed in order, and whether the stream
was ended (null pushed) by an empty deferred list. -/
structure LookupTrace where
  reqs : List (List KeyProto)
  emitted : List Entity
  done : Bool
deriving DecidableEq, Repr

/-- The makeRequest recursion of createReadStream (request.ts lines 418-467) on
its happy path, driven by a script of server responses consumed one per round:
each round issues a lookup for the current keys, emits the found entities, and
either ends the stream (deferred empty) or recurses on the deferred subset. If
the script runs out the last request is still recorded as pending. -/
def lookupRounds (keys : List KeyProto) : List LookupResponse → LookupTrace
  | [] => { reqs := [keys], emitted := [], done := false }
  | r :: rest =>
    if r.deferred = [] then { reqs := [keys], emitted := r.found, done := true }
    else
      let t := lookupRounds r.deferred rest
      { reqs := keys :: t.reqs, emitted := r.found ++ t.emitted, done := t.done }

/-- Number of leading script rounds that continue the lookup loop (non-empty
deferred before the first empty one). -/
def contRounds : List LookupResponse → Nat
  | [] => 0
  | r :: rest => if r.deferred = [] then 0 else contRounds rest + 1

/-- Number of script rounds actually consumed by the lookup loop. -/
def usedRounds : List LookupResponse → Nat
  | [] => 0
  | r :: rest => if r.deferred = [] then 1 else usedRounds rest + 1

/-- Whether the script contains a terminating round (empty deferred) that the
loop reaches. -/
def finishes : List LookupResponse → Bool
  | [] => false
  | r :: rest => if r.deferred = [] then true else finishes rest

/-- The argument shape of get: a single key or an array of keys; arrify turns
both into a key list (request.ts line 410, isSingleLookup at line 688). -/
inductive GetKeysArg where
  | single (k : KeyProto)
  | keyList (ks : List KeyProto)
deriving DecidableEq, Repr

/-- arrify composed with keyToKeyProto under the opaque key model. -/
def arrifyKeys : GetKeysArg → List KeyProto
  | GetKeysArg.single k => [k]
  | GetKeysArg.keyList ks => ks

/-- What get delivers to its callback: an error argument, a bare optional
entity (single-key form), or an entity list (array form). -/
inductive GetOutcome where
  | errCb (e : String)
  | singleResult (e : Option Entity)
  | listResult (es : List Entity)
deriving DecidableEq, Repr

/-- Mirror of get (request.ts lines 671-695): the createReadStream call sits in
a try/catch whose catch delivers the thrown error to the callback, so a
validation error becomes the callback error argument; otherwise the concat of
the streamed entities is delivered, unwrapped to results[0] exactly when the
keys argument was not an array. -/
def getOp (ctx : DatastoreRequest) (arg : GetKeysArg) (opts : RunQueryOptions)
    (resps : List LookupResponse) : GetOutcome :=
  match createReadStreamSync ctx (arrifyKeys arg) opts with
  | Except.error e => GetOutcome.errCb e
  | Except.ok _ =>
    let results := (lookupRounds (arrifyKeys arg) resps).emitted
    match arg with
    | GetKeysArg.single _ => GetOutcome.singleResult results.head?
    | GetKeysArg.keyList _ => GetOutcome.listResult results

/-- What runQuery delivers synchronously: the callback error from a caught
validation throw, or a started stream carrying the composed envelope. -/
inductive RunQueryOutcome where
  | errCb (e : String)
  | streaming (s : SharedQueryOptions)
deriving DecidableEq, Repr

/-- Mirror of runQuery (request.ts lines 924-950): runQueryStream in a
try/catch whose catch routes the error to the callback. -/
def runQueryOp (ctx : DatastoreRequest) (q : Query) (opts : RunQueryOptions) :
    RunQueryOutcome :=
  match runQueryStreamSync ctx q opts with
  | Except.error e => RunQueryOutcome.errCb e
  | Except.ok s => RunQueryOutcome.streaming s

/-- Info record attached to a finished query stream. -/
structure RunQueryInfo where
  moreResults : Option String := none
  endCursor : Option Cursor := none
deriving DecidableEq, Repr

/-- Batch portion of a runQuery response (proto defaults: skippedResults 0,
entityResults empty). -/
structure Batch where
  endCursor : Option Cursor := none
  moreResults : String := ""
  skippedResults : Int := 0
  entityResults : List Entity := []
deriving DecidableEq, Repr

/-- A runQuery response as consumed by onResultSet. -/
structure RunQueryResp where
  batch : Option Batch := none
deriving DecidableEq, Repr

/-- What one onResultSet invocation does to the stream. -/
inductive QueryAction where
  | destroy (e : String)
  | endNoBatch
  | emitEnd (entities : List Entity) (info : RunQueryInfo)
  | emitContinue (entities : List Entity) (next : Query)
deriving DecidableEq, Repr

/-- Mirror of the onResultSet continuation of runQueryStream (request.ts lines
1017-1083), happy path of the stream sink: an error destroys the stream; a
missing batch ends it; a finished batch emits and ends with info; a
NOT_FINISHED batch emits and rebuilds the query for the next round with the
start cursor set to this round's end cursor, the offset normalized from the -1
sentinel and reduced by skippedResults, and the limit reduced by the number of
entities returned only when it was a positive limit (the source guard is
limit truthy and limit greater than -1). The parseTransactionResponse call at
the top of onResultSet acts on the context and is modelled separately. -/
def onResultSet (q : Query) (err : Option String) (resp : RunQueryResp) : QueryAction :=
  match err with
  | some e => QueryAction.destroy e
  | none =>
    match resp.batch with
    | none => QueryAction.endNoBatch
    | some b =>
      let info : RunQueryInfo := { moreResults := some b.moreResults, endCursor := b.endCursor }
      let entities := b.entityResults
      if b.moreResults ≠ "NOT_FINISHED" then QueryAction.emitEnd entities info
      else
        let offset : Int := if q.offsetVal = -1 then 0 else q.offsetVal
        let q1 : Query := { q with
          startVal := info.endCursor,
          offsetVal := offset - b.skippedResults }
        let limit := q.limitVal
        let q2 : Query :=
          if limit ≠ 0 ∧ -1 < limit then
            { q1 with limitVal := limit - (b.entityResults.length : Int) }
          else q1
        QueryAction.emitContinue entities q2

/-- Mirror of the error routing of merge (request.ts lines 1180-1222): runRes
is the outcome of the internal transaction.run, workRes the combined outcome of
the per-entity fetch/merge/save loop and the commit, rollbackRes the outcome of
the best-effort rollback attempted on either failure. The source catches the
rollback result and discards it in both catch blocks, delivering the original
error to the callback. -/
def mergeRun (runRes : Except String Unit) (workRes : Except String Nat)
    (rollbackRes : Except String Unit) : Except String Nat :=
  match runRes with
  | Except.error e =>
    match rollbackRes with
    | _ => Except.error e
  | Except.ok _ =>
    match workRes with
    | Except.ok resp => Except.ok resp
    | Except.error e =>
      match rollbackRes with
      | _ => Except.error e

/-- Claim C1 (amended): in state EXPIRED, the read entry points createReadStream
(with a non-empty key list, since the missing-key check runs first), get,
runQueryStream, runQuery and runAggregationQuery all fail with the dedicated
transaction-expired error before any RPC is issued; delete and allocateIds are
not covered (see the counterexample: they perform no expired check). -/
theorem c1_expired_gated_read_entry_points
    (ctx : DatastoreRequest) (keys : List KeyProto) (q : Query) (opts : RunQueryOptions)
    (protoRes : Except String Unit) (resps : List LookupResponse) (k : KeyProto)
    (hexp : ctx.state = TransactionState.EXPIRED) (hk : keys ≠ []) :
    createReadStreamSync ctx keys opts = Except.error transactionExpiredError ∧
    runQueryStreamSync ctx q opts = Except.error transactionExpiredError ∧
    runAggregationQuerySync ctx q opts protoRes = Except.error transactionExpiredError ∧
    getOp ctx (GetKeysArg.single k) opts resps = GetOutcome.errCb transactionExpiredError ∧
    runQueryOp ctx q opts = RunQueryOutcome.errCb transactionExpiredError := by
  refine ⟨?_, ?_, ?_, ?_, ?_⟩ <;>
    simp [createReadStreamSync, runQueryStreamSync, runAggregationQuerySync, getOp,
      runQueryOp, checkExpired, arrifyKeys, hexp, List.length_eq_zero, hk]

/-- Witness for C1 at a concrete expired transaction context. -/
theorem c1_expired_gating_witness :
    createReadStreamSync { state := TransactionState.EXPIRED } [5] { } =
      Except.error transactionExpiredError ∧
    runQueryStreamSync { state := TransactionState.EXPIRED } { } { } =
      Except.error transactionExpiredError ∧
    runAggregationQuerySync { state := TransactionState.EXPIRED } { } { } (Except.ok ()) =
      Except.error transactionExpiredError ∧
    getOp { state := TransactionState.EXPIRED } (GetKeysArg.single 5) { } [] =
      GetOutcome.errCb transactionExpiredError ∧
    runQueryOp { state := TransactionState.EXPIRED } { } { } =
      RunQueryOutcome.errCb transactionExpiredError :=
  c1_expired_gated_read_entry_points { state := TransactionState.EXPIRED } [5] { } { }
    (Except.ok ()) [] 5 rfl (by decide)

/-- Counterexample for C1 as stated: on an expired transaction, delete raises
no error at all and mutates the buffered state (it appends the mutation record
to requests_), and allocateIds issues its RPC without any expired check. -/
theorem c1_delete_allocateIds_no_expired_check :
    deleteOp { isTransactionObject := true, id := some [1],
               state := TransactionState.EXPIRED } [7] =
      ({ isTransactionObject := true, id := some [1],
         state := TransactionState.EXPIRED,
         requests_ := [{ mutations := [MutationEntry.delete 7] }] }, []) ∧
    allocateIdsOp { isTransactionObject := true, id := some [1],
                    state := TransactionState.EXPIRED } false 7 3 =
      Except.ok (RpcCall.allocateIds [7, 7, 7]) :=
  ⟨rfl, rfl⟩

/-- Claim C2 (amended): parseTransactionResponse moves the state to IN_PROGRESS
exactly when the response carries a non-empty transaction handle, regardless of
the current state; in particular from NOT_STARTED the transition to IN_PROGRESS
happens exactly then, and the buffer-side operation delete never changes the
state. The unconditional overwrite is what refutes the original claim (see the
counterexample). -/
theorem c2_state_machine (ctx : DatastoreRequest) (resp : Option TxnResponse) :
    ((parseTransactionResponse ctx resp).state =
      if respHandleNonempty resp then TransactionState.IN_PROGRESS else ctx.state) ∧
    (ctx.state = TransactionState.NOT_STARTED →
      ((parseTransactionResponse ctx resp).state = TransactionState.IN_PROGRESS ↔
        respHandleNonempty resp = true)) ∧
    (∀ keys, (deleteOp ctx keys).1.state = ctx.state) := by
  have hmain : (parseTransactionResponse ctx resp).state =
      if respHandleNonempty resp then TransactionState.IN_PROGRESS else ctx.state := by
    match resp with
    | none => simp [parseTransactionResponse, respHandleNonempty]
    | some r =>
      match hr : r.transaction with
      | none => simp [parseTransactionResponse, respHandleNonempty, hr]
      | some t =>
        by_cases hlen : 0 < t.length <;>
          simp [parseTransactionResponse, respHandleNonempty, hr, hlen]
  refine ⟨hmain, ?_, ?_⟩
  · intro hns
    rw [hmain]
    by_cases h : respHandleNonempty resp <;> simp [h, hns]
  · intro keys
    by_cases h : ctx.id.isSome <;> simp [deleteOp, h]

/-- Witness for C2 at a concrete NOT_STARTED context and handle-bearing response. -/
theorem c2_state_machine_witness :
    (parseTransactionResponse { state := TransactionState.NOT_STARTED }
        (some { transaction := some [3] })).state = TransactionState.IN_PROGRESS :=
  ((c2_state_machine { state := TransactionState.NOT_STARTED }
    (some { transaction := some [3] })).2.1 rfl).mpr (by decide)

/-- Counterexample for C2 as stated: parseTransactionResponse, an operation of
this layer, transitions the state out of NOT_TRANSACTION (and likewise out of
EXPIRED) whenever the processed response carries a non-empty handle, because
the assignment is not guarded on the current state. -/
theorem c2_not_transaction_leaves_state :
    ((parseTransactionResponse { } (some { transaction := some [1] })).state =
        TransactionState.IN_PROGRESS ∧
      TransactionState.NOT_TRANSACTION ≠ TransactionState.IN_PROGRESS) ∧
    (parseTransactionResponse { state := TransactionState.EXPIRED }
        (some { transaction := some [1] })).state = TransactionState.IN_PROGRESS := by
  decide

/-- Claim C3: on a NOT_FINISHED batch, onResultSet emits this round's entities
and continues with start cursor equal to this round's end cursor, offset equal
to the previous offset (with the -1 sentinel normalized to 0) minus this
round's skippedResults, and the limit decremented by the number of returned
entities exactly when a positive limit was set (-1 or 0 is untouched); in
particular limit 10, offset 5, skippedResults 5 and three entities yield the
next round with offset 0, limit 7 and start equal to the round's end cursor. -/
theorem c3_query_continuation (q : Query) (b : Batch)
    (h : b.moreResults = "NOT_FINISHED") :
    onResultSet q none { batch := some b } =
      QueryAction.emitContinue b.entityResults
        { startVal := b.endCursor,
          offsetVal := (if q.offsetVal = -1 then 0 else q.offsetVal) - b.skippedResults,
          limitVal :=
            if 0 < q.limitVal then q.limitVal - (b.entityResults.length : Int)
            else q.limitVal,
          namespaceVal := q.namespaceVal } ∧
    onResultSet { startVal := none, offsetVal := 5, limitVal := 10, namespaceVal := none }
        none
        { batch := some
            { endCursor := some 42, moreResults := "NOT_FINISHED",
              skippedResults := 5, entityResults := [1, 2, 3] } } =
      QueryAction.emitContinue [1, 2, 3]
        { startVal := some 42, offsetVal := 0, limitVal := 7, namespaceVal := none } := by
  constructor
  · by_cases hl : 0 < q.limitVal
    · have h1 : q.limitVal ≠ 0 := by omega
      have h2 : (-1 : Int) < q.limitVal := by omega
      simp [onResultSet, h, h1, h2, hl]
    · have h1 : ¬(q.limitVal ≠ 0 ∧ (-1 : Int) < q.limitVal) := by omega
      simp [onResultSet, h, h1, hl]
  · decide

/-- Witness for C3 at the concrete continuation instance of the claim. -/
theorem c3_query_continuation_witness :
    onResultSet { startVal := none, offsetVal := 5, limitVal := 10, namespaceVal := none }
        none
        { batch := some
            { endCursor := some 42, moreResults := "NOT_FINISHED",
              skippedResults := 5, entityResults := [1, 2, 3] } } =
      QueryAction.emitContinue [1, 2, 3]
        { startVal := some 42, offsetVal := 0, limitVal := 7, namespaceVal := none } :=
  (c3_query_continuation
    { startVal := none, offsetVal := 5, limitVal := 10, namespaceVal := none }
    { endCursor := some 42, moreResults := "NOT_FINISHED", skippedResults := 5,
      entityResults := [1, 2, 3] } rfl).2

/-- Claim C4: the lookup pagination loop issues the original key set first and
then exactly the previous round's deferred subset per round, emits the
concatenation of the per-round found entities in round order, and ends the
stream exactly when a round returns an empty deferred list; the concrete
three-key scenario finishes in two rounds with emission A, B, C and no third
round. -/
theorem c4_lookup_pagination :
    (∀ (keys : List KeyProto) (resps : List LookupResponse),
      lookupRounds keys resps =
        { reqs := keys :: (resps.take (contRounds resps)).map LookupResponse.deferred,
          emitted := ((resps.take (usedRounds resps)).map LookupResponse.found).flatten,
          done := finishes resps }) ∧
    lookupRounds [0, 1, 2]
        [{ found := [10], deferred := [1, 2] }, { found := [11, 12], deferred := [] }] =
      { reqs := [[0, 1, 2], [1, 2]], emitted := [10, 11, 12], done := true } := by
  constructor
  · intro keys resps
    induction resps generalizing keys with
    | nil => simp [lookupRounds, contRounds, usedRounds, finishes]
    | cons r rest ih =>
      by_cases hd : r.deferred = []
      · simp [lookupRounds, contRounds, usedRounds, finishes, hd]
      · simp [lookupRounds, contRounds, usedRounds, finishes, hd, ih]
  · decide

/-- Claim C5 (amended): whenever both a consistency and a non-zero readTime are
supplied, every entry point rejects with the dedicated mutual-exclusion error
before any RPC, in any transactional or non-transactional context, provided the
context is not expired and (for the lookup path) at least one key is supplied:
the expired and missing-key checks run first, and a readTime of 0 is falsy and
treated as unset (see the counterexample). -/
theorem c5_mutual_exclusion_amended
    (ctx : DatastoreRequest) (keys : List KeyProto) (q : Query) (opts : RunQueryOptions)
    (protoRes : Except String Unit) (resps : List LookupResponse) (k : KeyProto)
    (hexp : ctx.state ≠ TransactionState.EXPIRED) (hk : keys ≠ [])
    (hc : consistencyTruthy opts = true) (hr : readTimeTruthy opts = true) :
    createReadStreamSync ctx keys opts = Except.error readTimeAndConsistencyError ∧
    runQueryStreamSync ctx q opts = Except.error readTimeAndConsistencyError ∧
    runAggregationQuerySync ctx q opts protoRes = Except.error readTimeAndConsistencyError ∧
    getOp ctx (GetKeysArg.single k) opts resps =
      GetOutcome.errCb readTimeAndConsistencyError ∧
    runQueryOp ctx q opts = RunQueryOutcome.errCb readTimeAndConsistencyError := by
  refine ⟨?_, ?_, ?_, ?_, ?_⟩ <;>
    simp [createReadStreamSync, runQueryStreamSync, runAggregationQuerySync, getOp,
      runQueryOp, checkExpired, throwOnReadTimeAndConsistency, arrifyKeys, hexp,
      List.length_eq_zero, hk, hc, hr]

/-- Witness for C5 at a concrete plain context with both options set. -/
theorem c5_mutual_exclusion_witness :
    createReadStreamSync { } [5] { consistency := some "strong", readTime := some 1000 } =
      Except.error readTimeAndConsistencyError ∧
    runQueryStreamSync { } { } { consistency := some "strong", readTime := some 1000 } =
      Except.error readTimeAndConsistencyError ∧
    runAggregationQuerySync { } { } { consistency := some "strong", readTime := some 1000 }
        (Except.ok ()) =
      Except.error readTimeAndConsistencyError ∧
    getOp { } (GetKeysArg.single 5) { consistency := some "strong", readTime := some 1000 }
        [] =
      GetOutcome.errCb readTimeAndConsistencyError ∧
    runQueryOp { } { } { consistency := some "strong", readTime := some 1000 } =
      RunQueryOutcome.errCb readTimeAndConsistencyError :=
  c5_mutual_exclusion_amended { } [5] { }
    { consistency := some "strong", readTime := some 1000 }
    (Except.ok ()) [] 5 (by decide) (by decide) (by decide) (by decide)

/-- Counterexample for C5 as stated: in an expired transactional context with
both options set, runAggregationQuery rejects with the expired error rather
than the dedicated mutual-exclusion error; and a caller-supplied readTime of 0
together with a consistency does not trigger the error at all, because 0 is
falsy in the guard. -/
theorem c5_expired_precedence :
    (runAggregationQuerySync { state := TransactionState.EXPIRED } { }
        { consistency := some "strong", readTime := some 1000 } (Except.ok ()) =
      Except.error transactionExpiredError ∧
      transactionExpiredError ≠ readTimeAndConsistencyError) ∧
    createReadStreamSync { } [7] { consistency := some "strong", readTime := some 0 } =
      Except.ok (getRequestOptions { } { consistency := some "strong", readTime := some 0 }) := by
  exact ⟨⟨rfl, by decide⟩, rfl⟩

/-- Claim C6: delete branches purely on the presence of the transaction handle
id: with a handle it appends exactly one mutation record to the buffered
requests_ and issues zero RPCs; without one it issues exactly one commit RPC
carrying the delete mutations and leaves the buffer untouched. -/
theorem c6_delete_branch (ctx : DatastoreRequest) (keys : List KeyProto) :
    (ctx.id.isSome = true → deleteOp ctx keys =
      ({ ctx with requests_ :=
          ctx.requests_ ++ [{ mutations := keys.map MutationEntry.delete }] }, [])) ∧
    (ctx.id.isSome = false → deleteOp ctx keys =
      (ctx, [RpcCall.commit { mutations := keys.map MutationEntry.delete }])) ∧
    ((deleteOp ctx keys).2 = [] ↔ ctx.id.isSome = true) ∧
    (deleteOp ctx keys).2.length ≤ 1 := by
  by_cases h : ctx.id.isSome <;> simp [deleteOp, h]

/-- Witness for C6 at a concrete transactional and non-transactional context. -/
theorem c6_delete_branch_witness :
    deleteOp { id := some [1] } [7] =
      ({ id := some [1], requests_ := [{ mutations := [MutationEntry.delete 7] }] }, []) ∧
    deleteOp { } [7] =
      ({ }, [RpcCall.commit { mutations := [MutationEntry.delete 7] }]) :=
  ⟨(c6_delete_branch { id := some [1] } [7]).1 rfl,
   (c6_delete_branch { } [7]).2.1 rfl⟩

/-- Claim C7: the outcome merge delivers never depends on the rollback result,
and when the internal run or the fetch/merge/commit work fails, the delivered
error is the original triggering error even when the best-effort rollback also
fails. -/
theorem c7_rollback_suppressed (runRes : Except String Unit) (workRes : Except String Nat)
    (rb rb' : Except String Unit) :
    mergeRun runRes workRes rb = mergeRun runRes workRes rb' ∧
    (∀ e, runRes = Except.error e → mergeRun runRes workRes rb = Except.error e) ∧
    (∀ e, runRes = Except.ok () → workRes = Except.error e →
      mergeRun runRes workRes rb = Except.error e) := by
  cases runRes <;> cases workRes <;> simp [mergeRun]

/-- Witness for C7: a failed fetch followed by a failed rollback surfaces the
fetch error. -/
theorem c7_rollback_suppressed_witness :
    mergeRun (Except.ok ()) (Except.error "fetch failed") (Except.error "rollback failed") =
      Except.error "fetch failed" :=
  (c7_rollback_suppressed (Except.ok ()) (Except.error "fetch failed")
    (Except.error "rollback failed") (Except.ok ())).2.2 "fetch failed" rfl rfl

/-- Claim C8: get with a single non-array key delivers the bare first result
entity when present and an absent result (not an error) when the emission is
empty; the array form always delivers the full list, even a singleton; and an
empty key list fails with the missing-key precondition error. -/
theorem c8_get_unwrap (ctx : DatastoreRequest) (opts : RunQueryOptions)
    (hexp : ctx.state ≠ TransactionState.EXPIRED)
    (hrc : throwOnReadTimeAndConsistency opts = Except.ok ())
    (htx : throwOnTransactionErrors ctx (getRequestOptions ctx opts) = Except.ok ()) :
    (∀ (k : KeyProto) (resps : List LookupResponse) (e : Entity) (tl : List Entity),
      (lookupRounds [k] resps).emitted = e :: tl →
      getOp ctx (GetKeysArg.single k) opts resps = GetOutcome.singleResult (some e)) ∧
    (∀ (k : KeyProto) (resps : List LookupResponse),
      (lookupRounds [k] resps).emitted = [] →
      getOp ctx (GetKeysArg.single k) opts resps = GetOutcome.singleResult none) ∧
    (∀ (ks : List KeyProto) (resps : List LookupResponse), ks ≠ [] →
      getOp ctx (GetKeysArg.keyList ks) opts resps =
        GetOutcome.listResult (lookupRounds ks resps).emitted) ∧
    (∀ resps : List LookupResponse,
      getOp ctx (GetKeysArg.keyList []) opts resps =
        GetOutcome.errCb "At least one Key object is required.") := by
  refine ⟨?_, ?_, ?_, ?_⟩
  · intro k resps e tl hemit
    simp [getOp, createReadStreamSync, checkExpired, arrifyKeys, hexp, hrc, htx, hemit]
  · intro k resps hemit
    simp [getOp, createReadStreamSync, checkExpired, arrifyKeys, hexp, hrc, htx, hemit]
  · intro ks resps hks
    simp [getOp, createReadStreamSync, checkExpired, arrifyKeys, hexp, hrc, htx,
      List.length_eq_zero, hks]
  · intro resps
    simp [getOp, createReadStreamSync, arrifyKeys]

/-- Witness for C8 at concrete single-key found, single-key missing, singleton
array, and empty-list inputs. -/
theorem c8_get_unwrap_witness :
    getOp { } (GetKeysArg.single 5) { } [{ found := [99], deferred := [] }] =
      GetOutcome.singleResult (some 99) ∧
    getOp { } (GetKeysArg.single 5) { } [{ found := [], deferred := [] }] =
      GetOutcome.singleResult none ∧
    getOp { } (GetKeysArg.keyList [5]) { } [{ found := [99], deferred := [] }] =
      GetOutcome.listResult [99] ∧
    getOp { } (GetKeysArg.keyList []) { } [] =
      GetOutcome.errCb "At least one Key object is required." := by
  have h := c8_get_unwrap { } { } (by decide) rfl rfl
  exact ⟨h.1 5 [{ found := [99], deferred := [] }] 99 [] rfl,
    h.2.1 5 [{ found := [], deferred := [] }] rfl,
    h.2.2.1 [5] [{ found := [99], deferred := [] }] (by decide),
    h.2.2.2 []⟩

/-- Claim C9 (amended): for every non-zero caller-supplied readTime t in epoch
milliseconds, the composed readOptions.readTime has seconds equal to
floor(t/1000) and no nanos populated; a readTime of 0 is falsy and composes no
readTime at all (see the counterexample). -/
theorem c9_readTime_seconds (ctx : DatastoreRequest) (opts : RunQueryOptions) (t : Int)
    (h1 : opts.readTime = some t) (h2 : t ≠ 0) :
    ∃ ro : ReadOptions, (getRequestOptions ctx opts).readOptions = some ro ∧
      ro.readTime = some { seconds := Int.fdiv t 1000, nanos := none } := by
  unfold getRequestOptions
  rw [h1]
  simp [h2]

/-- Witness for C9: readTime 1500 milliseconds composes 1 whole second. -/
theorem c9_readTime_seconds_witness :
    ∃ ro : ReadOptions, (getRequestOptions { } { readTime := some 1500 }).readOptions =
        some ro ∧
      ro.readTime = some { seconds := 1, nanos := none } :=
  c9_readTime_seconds { } { readTime := some 1500 } 1500 rfl (by decide)

/-- Counterexample for C9 as stated: at the caller-supplied readTime 0 the
composed request carries no readOptions at all, so readTime.seconds does not
equal floor(0/1000). -/
theorem c9_readTime_zero_skipped :
    (getRequestOptions { } { readTime := some 0 }).readOptions = none := rfl

/-- Claim C10: whenever the underlying createReadStream validation throws (for
the missing-key, expired, readTime/consistency, or in-transaction read-option
errors alike), get delivers that very error as the callback error argument
rather than letting the exception propagate: the catch block routes every
synchronous throw to the callback. -/
theorem c10_get_callback_delivery (ctx : DatastoreRequest) (arg : GetKeysArg)
    (opts : RunQueryOptions) (resps : List LookupResponse) (e : String)
    (h : createReadStreamSync ctx (arrifyKeys arg) opts = Except.error e) :
    getOp ctx arg opts resps = GetOutcome.errCb e := by
  simp [getOp, h]

/-- Witness for C10 at a concrete expired context. -/
theorem c10_get_callback_delivery_witness :
    getOp { state := TransactionState.EXPIRED } (GetKeysArg.single 5) { } [] =
      GetOutcome.errCb transactionExpiredError :=
  c10_get_callback_delivery { state := TransactionState.EXPIRED } (GetKeysArg.single 5)
    { } [] transactionExpiredError rfl

end DatastoreSpec
